import Mathlib

/-
Shallow embedding of the Tokyo-Weather-API core (src/Tokyo_Rainfall_API.py).

Modelling conventions:
  * Instants in time (time.time(), aware datetimes) are rationals counting
    seconds since the Unix epoch (UTC).  Converting an instant to Asia/Tokyo
    wall-clock time adds the fixed JST offset of 9 hours (32400 s); pytz has
    no DST for Asia/Tokyo in the modern era.
  * A forecast entry's `dt_txt` string "Y-m-d H:M:S" (naive UTC) is modelled
    as a calendar date plus seconds-of-day; `pytz.utc.localize` turns it into
    the corresponding instant.
  * Python floats are modelled as rationals; `round` is Python's
    round-half-to-even; `%` on numbers is Python's floored modulo.
  * JSON dict values that can be either a number or the string sentinel
    are a small sum type `Val`.
  * Each fetcher takes the cache state, the current instant and the upstream
    environment, and returns its record together with the number of upstream
    HTTP requests it performed.  A `none` upstream response stands for any
    failure caught by the fetcher's except-branch (network error, non-JSON
    body, missing field): every such failure funnels into the same branch.
-/

namespace TokyoWeather

/-! ### Python numeric primitives -/

/-- Python floored modulo on rationals: the result lies in `[0, m)` for
positive `m` (sign of the divisor), as for Python `%`. -/
def pymod (x m : ℚ) : ℚ := x - m * ((x / m).floor : ℚ)

/-- Python `round` on rationals: round half to even (banker's rounding). -/
def pyRound (q : ℚ) : ℤ :=
  if q - (q.floor : ℚ) < 1/2 then q.floor
  else if 1/2 < q - (q.floor : ℚ) then q.floor + 1
  else if q.floor % 2 = 0 then q.floor else q.floor + 1

/-- Python `str.capitalize`: first character upper-cased, rest lower-cased. -/
def pyCapitalize (s : String) : String :=
  match s.data with
  | [] => String.mk []
  | c :: rest => String.mk (c.toUpper :: rest.map Char.toLower)

/-! ### Calendar arithmetic (model of the datetime library)

Conversion between days-since-epoch and civil dates (Howard Hinnant's
algorithms, with truncating integer division as in C). -/

/-- Days since 1970-01-01 of the civil date `(y, m, d)`. -/
def daysFromCivil (y m d : ℤ) : ℤ :=
  let y2 := y - (if m ≤ 2 then 1 else 0)
  let era := (if 0 ≤ y2 then y2 else y2 - 399).tdiv 400
  let yoe := y2 - era * 400
  let doy := ((153 * (m + (if 2 < m then -3 else 9)) + 2).tdiv 5) + d - 1
  let doe := yoe * 365 + yoe.tdiv 4 - yoe.tdiv 100 + doy
  era * 146097 + doe - 719468

/-- Civil date `(y, m, d)` of a days-since-epoch count. -/
def civilFromDays (z0 : ℤ) : ℤ × ℤ × ℤ :=
  let z := z0 + 719468
  let era := (if 0 ≤ z then z else z - 146096).tdiv 146097
  let doe := z - era * 146097
  let yoe := (doe - doe.tdiv 1460 + doe.tdiv 36524 - doe.tdiv 146096).tdiv 365
  let y := yoe + era * 400
  let doy := doe - (365 * yoe + yoe.tdiv 4 - yoe.tdiv 100)
  let mp := (5 * doy + 2).tdiv 153
  let d := doy - (153 * mp + 2).tdiv 5 + 1
  let m := mp + (if mp < 10 then 3 else -9)
  (y + (if m ≤ 2 then 1 else 0), m, d)

/-- Day-of-month of an epoch-seconds wall-clock value. -/
def dayOfMonth (t : ℤ) : ℤ := (civilFromDays (t.ediv 86400)).2.2

/-- Zero-pad a (nonnegative) integer to two digits, as strftime does. -/
def pad2 (n : ℤ) : String := (if n < 10 then String.mk ['0'] else String.mk []) ++ toString n

/-- strftime "%H:%M" of an epoch-seconds wall-clock value. -/
def fmtHM (t : ℤ) : String :=
  let s := t.emod 86400
  pad2 (s.ediv 3600) ++ String.mk [':'] ++ pad2 ((s.emod 3600).ediv 60)

/-- The fixed JST offset: Asia/Tokyo wall clock = UTC instant + 9 h. -/
def tokyoWall (t : ℚ) : ℚ := t + 32400

/-! ### Raw upstream data (parsed JSON payloads) -/

/-- A calendar date, the `dt_txt.split()[0]` part of a forecast entry. -/
structure DateD where
  y : ℤ
  m : ℤ
  d : ℤ
deriving DecidableEq

/-- A `dt_txt` value: naive UTC date plus seconds within the day. -/
structure DtTxt where
  date : DateD
  tod : ℚ
deriving DecidableEq

/-- The UTC instant of a `dt_txt` value (`pytz.utc.localize`). -/
def dtInstant (t : DtTxt) : ℚ :=
  ((daysFromCivil t.date.y t.date.m t.date.d : ℤ) : ℚ) * 86400 + t.tod

/-- One entry of the upstream /forecast `list`, with the fields the code
reads: `dt_txt`, optional `rain.3h`, `main.temp`, `weather[0].description`,
`weather[0].icon`. -/
structure ForecastItem where
  dt_txt : DtTxt
  rain3h : Option ℚ
  temp : ℚ
  descr : String
  icon : String
deriving DecidableEq

/-- The fields the code reads from the upstream /weather payload. -/
structure WeatherResp where
  temp : ℚ
  humidity : ℚ
  wind_speed : ℚ
  wind_deg : Option ℚ
  weather : String
  descr : String
  icon : String
deriving DecidableEq

/-- The fields the code reads from /air_pollution: `list[0].main.aqi` and
`list[0].components` (pollutant name to concentration). -/
structure AirResp where
  aqi : ℤ
  components : List (String × ℚ)
deriving DecidableEq

/-- Sunrise/sunset epoch seconds from /weather `sys`. -/
structure SunResp where
  sunrise : ℤ
  sunset : ℤ
deriving DecidableEq

/-- The upstream environment for one pass: the response each of the five
HTTP requests would receive (`none` = that request/parse fails).  Rainfall
and the 5-day forecast issue separate requests to the same endpoint, hence
two separate slots. -/
structure Env where
  forecastRain : Option (List ForecastItem)
  weatherResp : Option WeatherResp
  forecastDays : Option (List ForecastItem)
  airResp : Option AirResp
  sunResp : Option SunResp
deriving DecidableEq

/-! ### Domain records (the dict each fetcher returns) -/

/-- A JSON value that is a number, or a string sentinel on fallback. -/
inductive Val where
  | num : ℚ → Val
  | str : String → Val
deriving DecidableEq

/-- One rainfall forecast point: Tokyo wall-clock timestamp (modelling the
formatted string) and millimetres over the 3-hour bucket. -/
structure RainPoint where
  timestamp : ℚ
  rainfall_3h_mm : ℚ
deriving DecidableEq

/-- The record returned by `get_rainfall_data`. -/
structure RainfallData where
  current_rainfall_last_hour_mm : ℚ
  current_timestamp : ℚ
  forecast : List RainPoint
deriving DecidableEq

/-- The record returned by `get_current_weather`. -/
structure CurrentWeather where
  temp : Val
  humidity : Val
  wind_speed : Val
  wind_deg : ℚ
  weather : String
  description : String
  icon : String
deriving DecidableEq

/-- One day of the 5-day forecast. -/
structure DayEntry where
  temp : ℚ
  description : String
  icon : String
  date : String
deriving DecidableEq

/-- The record returned by `get_air_quality`. -/
structure AirQuality where
  aqi : ℤ
  level : String
  advice : String
  color : String
  components : List (String × ℚ)
deriving DecidableEq

/-- The record returned by `get_sun_moon_data`. -/
structure SunMoon where
  sunrise : String
  sunset : String
  moon : String
deriving DecidableEq

/-! ### The cache -/

/-- The dict stored in `WEATHER_CACHE['data']`.  A field being `some` models
the corresponding key being present in the stored dict. -/
structure CachedData where
  rainfall_data : Option RainfallData
  current_weather : Option CurrentWeather
  five_day_forecast : Option (List DayEntry)
  air_quality : Option AirQuality
  sun_moon : Option SunMoon
  last_updated : ℚ
deriving DecidableEq

/-- `WEATHER_CACHE`: single data slot plus capture timestamp. -/
structure WeatherCache where
  data : Option CachedData
  timestamp : ℚ
deriving DecidableEq

/-- `CACHE_DURATION = 3600` (1 hour in seconds). -/
def CACHE_DURATION : ℚ := 3600

/-- `is_cache_valid()`: data present and younger than the TTL. -/
def is_cache_valid (cache : WeatherCache) (now : ℚ) : Bool :=
  cache.data.isSome && decide (now - cache.timestamp < CACHE_DURATION)

/-- `get_from_cache()`. -/
def get_from_cache (cache : WeatherCache) : Option CachedData :=
  cache.data

/-! ### wind_direction -/

/-- The fixed ordered 8-entry compass label table. -/
def windLabels : List String :=
  ["↓ N", "↙ NE", "← E", "↖ SE", "↑ S", "↗ SW", "→ W", "↘ NW"]

/-- The table index `round((degrees % 360) / 45) % 8` computed by
`wind_direction`. -/
def windIndex (degrees : ℚ) : ℤ :=
  pyRound (pymod degrees 360 / 45) % 8

/-- `wind_direction(degrees)`. -/
def wind_direction (degrees : ℚ) : String :=
  windLabels.getD (windIndex degrees).toNat (String.mk [])

/-! ### Fetcher 1: get_rainfall_data -/

/-- `item.get('rain', {}).get('3h', 0.0)`. -/
def rainValue (it : ForecastItem) : ℚ := it.rain3h.getD 0

/-- The output record built from one kept forecast entry: Tokyo wall-clock
timestamp and the 3-hour millimetres. -/
def rainPoint (it : ForecastItem) : RainPoint :=
  { timestamp := tokyoWall (dtInstant it.dt_txt),
    rainfall_3h_mm := rainValue it }

/-- The accumulation loop over `data['list']`: append an output record for
each entry strictly in the future with positive rainfall. -/
def rainLoop (now : ℚ) (items : List ForecastItem) : List RainPoint :=
  items.foldl
    (fun acc it =>
      if now < dtInstant it.dt_txt then
        if 0 < rainValue it then acc ++ [rainPoint it] else acc
      else acc)
    []

/-- The except-branch fallback record of `get_rainfall_data`. -/
def rainFallback (now : ℚ) : RainfallData :=
  { current_rainfall_last_hour_mm := 0,
    current_timestamp := tokyoWall now,
    forecast := [] }

/-- The fresh-fetch path of `get_rainfall_data` (one HTTP request). -/
def freshRainfall (now : ℚ) (env : Env) : RainfallData × ℕ :=
  match env.forecastRain with
  | none => (rainFallback now, 1)
  | some items =>
      ({ current_rainfall_last_hour_mm :=
           match items with
           | [] => 0
           | it :: _ => rainValue it,
         current_timestamp := tokyoWall now,
         forecast := (rainLoop now items).take 4 }, 1)

/-- `get_rainfall_data()`: serve the cached sub-record when the cache is
valid and holds the key, otherwise fetch fresh. -/
def get_rainfall_data (cache : WeatherCache) (now : ℚ) (env : Env) :
    RainfallData × ℕ :=
  if is_cache_valid cache now then
    match get_from_cache cache with
    | some d =>
        match d.rainfall_data with
        | some r => (r, 0)
        | none => freshRainfall now env
    | none => freshRainfall now env
  else freshRainfall now env

/-! ### Fetcher 2: get_current_weather -/

/-- The except-branch fallback record of `get_current_weather`. -/
def weatherFallback : CurrentWeather :=
  { temp := Val.str ("N/A"),
    humidity := Val.str ("N/A"),
    wind_speed := Val.str ("N/A"),
    wind_deg := 0,
    weather := "Unknown",
    description := "Weather unavailable",
    icon := "01d" }

/-- The fresh-fetch path of `get_current_weather`. -/
def freshWeather (env : Env) : CurrentWeather × ℕ :=
  match env.weatherResp with
  | none => (weatherFallback, 1)
  | some w =>
      ({ temp := Val.num w.temp,
         humidity := Val.num w.humidity,
         wind_speed := Val.num w.wind_speed,
         wind_deg := w.wind_deg.getD 0,
         weather := w.weather,
         description := pyCapitalize w.descr,
         icon := w.icon }, 1)

/-- `get_current_weather()`. -/
def get_current_weather (cache : WeatherCache) (now : ℚ) (env : Env) :
    CurrentWeather × ℕ :=
  if is_cache_valid cache now then
    match get_from_cache cache with
    | some d =>
        match d.current_weather with
        | some w => (w, 0)
        | none => freshWeather env
    | none => freshWeather env
  else freshWeather env

/-! ### Fetcher 3: get_5day_forecast -/

/-- strftime "%a, %b %d" of a civil date (weekday and month names as
abbreviated by the C locale; 1970-01-01 was a Thursday). -/
def weekdayNames : List String :=
  ["Sun", "Mon", "Tue", "Wed", "Thu", "Fri", "Sat"]

def monthNames : List String :=
  ["Jan", "Feb", "Mar", "Apr", "May", "Jun",
   "Jul", "Aug", "Sep", "Oct", "Nov", "Dec"]

def formatDateLabel (d : DateD) : String :=
  let wd := ((daysFromCivil d.y d.m d.d) + 4).emod 7
  weekdayNames.getD wd.toNat (String.mk []) ++ ", " ++
    monthNames.getD (d.m - 1).toNat (String.mk []) ++ String.mk [' '] ++ pad2 d.d

/-- The per-day entry stored for the first forecast item seen on a date. -/
def mkDayEntry (it : ForecastItem) : DayEntry :=
  { temp := it.temp,
    description := pyCapitalize it.descr,
    icon := it.icon,
    date := formatDateLabel it.dt_txt.date }

/-- One step of filling `daily_data`: insertion-ordered dict keyed by the
date, first write per key wins. -/
def dailyInsert (acc : List (DateD × DayEntry)) (it : ForecastItem) :
    List (DateD × DayEntry) :=
  if acc.any (fun p => p.1 = it.dt_txt.date) then acc
  else acc ++ [(it.dt_txt.date, mkDayEntry it)]

/-- The fresh-fetch path of `get_5day_forecast`:
`list(daily_data.values())[:5]`. -/
def fresh5day (env : Env) : List DayEntry × ℕ :=
  match env.forecastDays with
  | none => ([], 1)
  | some items => (((items.foldl dailyInsert []).map Prod.snd).take 5, 1)

/-- `get_5day_forecast()`. -/
def get_5day_forecast (cache : WeatherCache) (now : ℚ) (env : Env) :
    List DayEntry × ℕ :=
  if is_cache_valid cache now then
    match get_from_cache cache with
    | some d =>
        match d.five_day_forecast with
        | some f => (f, 0)
        | none => fresh5day env
    | none => fresh5day env
  else fresh5day env

/-! ### Fetcher 4: get_air_quality -/

/-- The fixed `levels` lookup table, with `dict.get`'s default tuple for
any key outside 1..5. -/
def aqLevels (aqi : ℤ) : String × String × String :=
  if aqi = 1 then ("Good", "Air quality is satisfactory.", "#4CAF50")
  else if aqi = 2 then ("Fair", "Moderate quality.", "#8BC34A")
  else if aqi = 3 then ("Moderate", "Sensitive groups affected.", "#FFC107")
  else if aqi = 4 then ("Poor", "Unhealthy for some.", "#FF9800")
  else if aqi = 5 then ("Very Poor", "Health alert.", "#F44336")
  else ("Unknown", "No data", "#9E9E9E")

/-- The except-branch fallback record of `get_air_quality`. -/
def airFallback : AirQuality :=
  { aqi := 0,
    level := "Unknown",
    advice := "No air quality data",
    color := "#9E9E9E",
    components := [] }

/-- The fresh-fetch path of `get_air_quality`. -/
def freshAir (env : Env) : AirQuality × ℕ :=
  match env.airResp with
  | none => (airFallback, 1)
  | some a =>
      ({ aqi := a.aqi,
         level := (aqLevels a.aqi).1,
         advice := (aqLevels a.aqi).2.1,
         color := (aqLevels a.aqi).2.2,
         components := a.components }, 1)

/-- `get_air_quality()`. -/
def get_air_quality (cache : WeatherCache) (now : ℚ) (env : Env) :
    AirQuality × ℕ :=
  if is_cache_valid cache now then
    match get_from_cache cache with
    | some d =>
        match d.air_quality with
        | some a => (a, 0)
        | none => freshAir env
    | none => freshAir env
  else freshAir env

/-! ### Fetcher 5: get_sun_moon_data -/

/-- The fixed 8-symbol lunar phase table. -/
def moonPhases : List String :=
  ["🌑", "🌒", "🌓", "🌔", "🌕", "🌖", "🌗", "🌘"]

/-- The except-branch fallback record of `get_sun_moon_data`. -/
def sunFallback : SunMoon :=
  { sunrise := "N/A", sunset := "N/A", moon := "🌑" }

/-- The fresh-fetch path of `get_sun_moon_data`: convert the epoch
sunrise/sunset to Tokyo wall clock, format "%H:%M", and index the phase
table by the sunset's day-of-month mod 8. -/
def freshSunMoon (env : Env) : SunMoon × ℕ :=
  match env.sunResp with
  | none => (sunFallback, 1)
  | some s =>
      let sunriseWall := s.sunrise + 32400
      let sunsetWall := s.sunset + 32400
      ({ sunrise := fmtHM sunriseWall,
         sunset := fmtHM sunsetWall,
         moon := moonPhases.getD ((dayOfMonth sunsetWall).emod 8).toNat
                   (String.mk []) }, 1)

/-- `get_sun_moon_data()`. -/
def get_sun_moon_data (cache : WeatherCache) (now : ℚ) (env : Env) :
    SunMoon × ℕ :=
  if is_cache_valid cache now then
    match get_from_cache cache with
    | some d =>
        match d.sun_moon with
        | some s => (s, 0)
        | none => freshSunMoon env
    | none => freshSunMoon env
  else freshSunMoon env

/-! ### update_cache and the request loop -/

/-- `update_cache()`: run all five fetchers against the current state, then
store all five results and the capture timestamp in one step. -/
def update_cache (cache : WeatherCache) (now : ℚ) (env : Env) : WeatherCache :=
  { data := some
      { rainfall_data := some (get_rainfall_data cache now env).1,
        current_weather := some (get_current_weather cache now env).1,
        five_day_forecast := some (get_5day_forecast cache now env).1,
        air_quality := some (get_air_quality cache now env).1,
        sun_moon := some (get_sun_moon_data cache now env).1,
        last_updated := tokyoWall now },
    timestamp := now }

/-- The snapshot produced by one refresh cycle in which every fetcher takes
its fresh path: all five sub-records come from the same environment and the
same instant. -/
def freshSnapshot (now : ℚ) (env : Env) : CachedData :=
  { rainfall_data := some (freshRainfall now env).1,
    current_weather := some (freshWeather env).1,
    five_day_forecast := some (fresh5day env).1,
    air_quality := some (freshAir env).1,
    sun_moon := some (freshSunMoon env).1,
    last_updated := tokyoWall now }

/-- The cache effect of one `/rainfall/formatted` request: refresh when the
cache is invalid, otherwise leave the state untouched (reads do not write). -/
def handleRequest (cache : WeatherCache) (now : ℚ) (env : Env) : WeatherCache :=
  if is_cache_valid cache now then cache else update_cache cache now env

/-- The cache states reachable from the initial
`WEATHER_CACHE = {'data': None, 'timestamp': 0}` by serving requests. -/
inductive Reachable : WeatherCache → Prop
  | init : Reachable ⟨none, 0⟩
  | step (cache : WeatherCache) (now : ℚ) (env : Env) :
      Reachable cache → Reachable (handleRequest cache now env)

/-! ### Spec-side definitions (for refinement-style statements) -/

/-- Modelled from the spec sentence for the 5-day forecast: keep only the
first entry seen per calendar date, in encounter order. -/
def firstPerDate (seen : List DateD) : List ForecastItem → List ForecastItem
  | [] => []
  | it :: rest =>
      if it.dt_txt.date ∈ seen then firstPerDate seen rest
      else it :: firstPerDate (it.dt_txt.date :: seen) rest

/-- The filter the spec describes for the rainfall forecast: strictly in the
future (in Tokyo time, i.e. as instants) and strictly positive rainfall. -/
def rainKeep (now : ℚ) (it : ForecastItem) : Bool :=
  decide (now < dtInstant it.dt_txt) && decide (0 < rainValue it)

/-! ### Concrete inputs used by the witnesses -/

def rainEx : RainfallData := ⟨2, 1000, []⟩

def weatherEx : CurrentWeather :=
  ⟨Val.num 20, Val.num 55, Val.num 3, 180, "Clear", "Clear sky", "01d"⟩

def daysEx : List DayEntry := [⟨20, "Clear sky", "01d", "Thu, Jan 01"⟩]

def airEx : AirQuality := ⟨2, "Fair", "Moderate quality.", "#8BC34A", [("pm2_5", 10)]⟩

def sunEx : SunMoon := ⟨"06:45", "17:20", "🌕"⟩

/-- A fully populated cached snapshot captured at t = 100. -/
def cachedEx : CachedData :=
  ⟨some rainEx, some weatherEx, some daysEx, some airEx, some sunEx, 100⟩

def cacheEx : WeatherCache := ⟨some cachedEx, 100⟩

/-- The initial cache state. -/
def emptyCache : WeatherCache := ⟨none, 0⟩

/-- An environment in which every upstream request fails. -/
def envNone : Env := ⟨none, none, none, none, none⟩

/-- Raw forecast entries around now = 0: one past entry, five future ones of
which one has no rain field. -/
def itemPast : ForecastItem := ⟨⟨⟨1969, 12, 31⟩, 43200⟩, some 5, 8, "light rain", "10d"⟩

def itemF1 : ForecastItem := ⟨⟨⟨1970, 1, 1⟩, 3600⟩, some 2, 9, "rain", "10d"⟩

def itemF0 : ForecastItem := ⟨⟨⟨1970, 1, 1⟩, 7200⟩, none, 10, "clear sky", "01d"⟩

def itemF2 : ForecastItem := ⟨⟨⟨1970, 1, 1⟩, 10800⟩, some 1, 11, "rain", "10d"⟩

def itemF3 : ForecastItem := ⟨⟨⟨1970, 1, 1⟩, 14400⟩, some 3, 12, "rain", "09d"⟩

def itemF4 : ForecastItem := ⟨⟨⟨1970, 1, 2⟩, 0⟩, some 4, 13, "rain", "09d"⟩

def itemF5 : ForecastItem := ⟨⟨⟨1970, 1, 2⟩, 3600⟩, some 6, 14, "rain", "09d"⟩

def rainItemsEx : List ForecastItem :=
  [itemPast, itemF1, itemF0, itemF2, itemF3, itemF4, itemF5]

def envRain : Env := ⟨some rainItemsEx, none, none, none, none⟩

/-- Eight 3-hourly entries spanning exactly three calendar dates. -/
def daysItemsEx : List ForecastItem :=
  [⟨⟨⟨2024, 1, 1⟩, 0⟩, none, 5, "clear sky", "01d"⟩,
   ⟨⟨⟨2024, 1, 1⟩, 10800⟩, none, 6, "few clouds", "02d"⟩,
   ⟨⟨⟨2024, 1, 1⟩, 21600⟩, none, 7, "rain", "10d"⟩,
   ⟨⟨⟨2024, 1, 2⟩, 0⟩, some 1, 4, "rain", "10d"⟩,
   ⟨⟨⟨2024, 1, 2⟩, 10800⟩, none, 5, "clear sky", "01d"⟩,
   ⟨⟨⟨2024, 1, 2⟩, 21600⟩, none, 6, "mist", "50d"⟩,
   ⟨⟨⟨2024, 1, 3⟩, 0⟩, none, 3, "snow", "13d"⟩,
   ⟨⟨⟨2024, 1, 3⟩, 10800⟩, none, 4, "snow", "13d"⟩]

def envDays : Env := ⟨none, none, some daysItemsEx, none, none⟩

def airResp3 : AirResp := ⟨3, [("pm10", 20)]⟩

def airResp7 : AirResp := ⟨7, []⟩

def airResp0 : AirResp := ⟨0, []⟩

def envAir3 : Env := ⟨none, none, none, some airResp3, none⟩

def envAir7 : Env := ⟨none, none, none, some airResp7, none⟩

def envAir0 : Env := ⟨none, none, none, some airResp0, none⟩

/-! ### Helper lemmas -/

/-- The two floors on ℚ agree. -/
lemma ratFloor_intFloor (q : ℚ) : q.floor = ⌊q⌋ :=
  (Rat.floor_def' q).trans Rat.floor_def.symm

lemma ratFloor_sub_eight_mul (q : ℚ) (k : ℤ) :
    (q - 8 * (k : ℚ)).floor = q.floor - 8 * k := by
  rw [ratFloor_intFloor, ratFloor_intFloor]
  have h := Int.floor_sub_int q (8 * k)
  push_cast at h
  exact h

/-- Shifting by a multiple of 8 commutes with banker's rounding (the floor
shifts by the same even amount, so the tie-break parity is unchanged). -/
lemma pyRound_sub_eight_mul (q : ℚ) (k : ℤ) :
    pyRound (q - 8 * (k : ℚ)) = pyRound q - 8 * k := by
  unfold pyRound
  rw [ratFloor_sub_eight_mul]
  have hr : q - 8 * (k : ℚ) - ((q.floor - 8 * k : ℤ) : ℚ) = q - (q.floor : ℚ) := by
    push_cast
    ring
  rw [hr]
  have hpar : (q.floor - 8 * k) % 2 = q.floor % 2 := by omega
  rw [hpar]
  split_ifs <;> omega

/-- Unrolling the rainfall accumulation loop: it appends exactly the mapped
filter of the input, in order. -/
lemma rainFold_eq (now : ℚ) (items : List ForecastItem) :
    ∀ acc : List RainPoint,
      List.foldl (fun acc it =>
        if now < dtInstant it.dt_txt then
          if 0 < rainValue it then acc ++ [rainPoint it] else acc
        else acc) acc items
      = acc ++ (items.filter (rainKeep now)).map rainPoint := by
  induction items with
  | nil =>
      intro acc
      simp
  | cons it rest ih =>
      intro acc
      rw [List.foldl_cons]
      by_cases h1 : now < dtInstant it.dt_txt
      · by_cases h2 : 0 < rainValue it
        · rw [if_pos h1, if_pos h2, ih]
          simp [List.filter_cons, rainKeep, h1, h2]
        · rw [if_pos h1, if_neg h2, ih]
          simp [List.filter_cons, rainKeep, h1, h2]
      · rw [if_neg h1, ih]
        simp [List.filter_cons, rainKeep, h1]

lemma rainLoop_eq_filter (now : ℚ) (items : List ForecastItem) :
    rainLoop now items = (items.filter (rainKeep now)).map rainPoint := by
  simpa using rainFold_eq now items []

/-- `firstPerDate` only depends on the membership of `seen`. -/
lemma firstPerDate_congr (l : List ForecastItem) :
    ∀ s₁ s₂ : List DateD, (∀ x, x ∈ s₁ ↔ x ∈ s₂) →
      firstPerDate s₁ l = firstPerDate s₂ l := by
  induction l with
  | nil =>
      intro s₁ s₂ _
      rfl
  | cons it rest ih =>
      intro s₁ s₂ hmem
      simp only [firstPerDate]
      by_cases h : it.dt_txt.date ∈ s₁
      · rw [if_pos h, if_pos ((hmem _).1 h)]
        exact ih s₁ s₂ hmem
      · rw [if_neg h, if_neg (fun hc => h ((hmem _).2 hc))]
        have hmem2 : ∀ x, x ∈ it.dt_txt.date :: s₁ ↔ x ∈ it.dt_txt.date :: s₂ := by
          intro x
          simp [hmem x]
        rw [ih _ _ hmem2]

/-- Unrolling the `daily_data` fold: starting from an accumulator, it
appends one keyed entry per first occurrence of each not-yet-seen date, in
encounter order. -/
lemma daily_fold_eq (items : List ForecastItem) :
    ∀ acc : List (DateD × DayEntry),
      items.foldl dailyInsert acc
        = acc ++ (firstPerDate (acc.map Prod.fst) items).map
            (fun it => (it.dt_txt.date, mkDayEntry it)) := by
  induction items with
  | nil =>
      intro acc
      simp [firstPerDate]
  | cons it rest ih =>
      intro acc
      rw [List.foldl_cons]
      by_cases h : it.dt_txt.date ∈ acc.map Prod.fst
      · have hany : (acc.any fun p => decide (p.1 = it.dt_txt.date)) = true := by
          simp only [List.any_eq_true, decide_eq_true_eq]
          rcases List.mem_map.1 h with ⟨p, hp, hpe⟩
          exact ⟨p, hp, hpe⟩
        have hins : dailyInsert acc it = acc := by
          simp [dailyInsert, hany]
        rw [hins, ih acc]
        simp [firstPerDate, h]
      · have hany : (acc.any fun p => decide (p.1 = it.dt_txt.date)) = false := by
          rw [← Bool.not_eq_true]
          simp only [List.any_eq_true, decide_eq_true_eq, not_exists, not_and]
          intro p hp hpe
          exact h (List.mem_map.2 ⟨p, hp, hpe⟩)
        have hins : dailyInsert acc it = acc ++ [(it.dt_txt.date, mkDayEntry it)] := by
          simp [dailyInsert, hany]
        rw [hins, ih (acc ++ [(it.dt_txt.date, mkDayEntry it)])]
        rw [List.append_assoc]
        congr 1
        have hkeys : (acc ++ [(it.dt_txt.date, mkDayEntry it)]).map Prod.fst
            = acc.map Prod.fst ++ [it.dt_txt.date] := by
          simp
        rw [hkeys]
        simp only [firstPerDate, h, if_neg h, List.map_cons, List.singleton_append]
        congr 1
        rw [firstPerDate_congr rest (acc.map Prod.fst ++ [it.dt_txt.date])
          (it.dt_txt.date :: acc.map Prod.fst) (fun x => by simp [or_comm])]

/-- The number of retained first-per-date entries is the number of distinct
dates not yet seen. -/
lemma firstPerDate_length (l : List ForecastItem) :
    ∀ seen : List DateD,
      (firstPerDate seen l).length
        = ((l.map fun it => it.dt_txt.date).toFinset \ seen.toFinset).card := by
  induction l with
  | nil =>
      intro seen
      simp [firstPerDate]
  | cons it rest ih =>
      intro seen
      simp only [firstPerDate, List.map_cons, List.toFinset_cons]
      by_cases h : it.dt_txt.date ∈ seen
      · rw [if_pos h, ih seen]
        congr 1
        have hd : it.dt_txt.date ∈ seen.toFinset := by
          simpa using h
        ext x
        simp only [Finset.mem_sdiff, Finset.mem_insert]
        constructor
        · rintro ⟨hx, hns⟩
          exact ⟨Or.inr hx, hns⟩
        · rintro ⟨hx | hx, hns⟩
          · exact absurd (hx ▸ hd) hns
          · exact ⟨hx, hns⟩
      · rw [if_neg h]
        simp only [List.length_cons]
        rw [ih (it.dt_txt.date :: seen)]
        have hd : it.dt_txt.date ∉ seen.toFinset := by
          simpa using h
        have e1 : insert it.dt_txt.date
              ((rest.map fun x => x.dt_txt.date).toFinset) \ seen.toFinset
            = insert it.dt_txt.date
              ((rest.map fun x => x.dt_txt.date).toFinset \ seen.toFinset) := by
          ext x
          simp only [Finset.mem_sdiff, Finset.mem_insert]
          constructor
          · rintro ⟨hx | hx, hns⟩
            · exact Or.inl hx
            · exact Or.inr ⟨hx, hns⟩
          · rintro (hx | ⟨hx, hns⟩)
            · exact ⟨Or.inl hx, hx ▸ hd⟩
            · exact ⟨Or.inr hx, hns⟩
        have e2 : (rest.map fun x => x.dt_txt.date).toFinset
              \ (it.dt_txt.date :: seen).toFinset
            = ((rest.map fun x => x.dt_txt.date).toFinset \ seen.toFinset).erase
                it.dt_txt.date := by
          ext x
          simp only [Finset.mem_sdiff, List.toFinset_cons, Finset.mem_insert,
            Finset.mem_erase, not_or]
          tauto
        have e3 : insert it.dt_txt.date
              ((rest.map fun x => x.dt_txt.date).toFinset \ seen.toFinset)
            = insert it.dt_txt.date
              (((rest.map fun x => x.dt_txt.date).toFinset \ seen.toFinset).erase
                it.dt_txt.date) := by
          ext x
          simp only [Finset.mem_insert, Finset.mem_erase]
          tauto
        rw [e1, e2, e3, Finset.card_insert_of_not_mem (Finset.not_mem_erase _ _)]

/-! ### Claim theorems -/

/-- C2: `is_cache_valid` is true exactly when a snapshot is stored and the
current time minus the capture timestamp is strictly below the 3600-second
TTL; the definition has no other invalidation condition. -/
theorem is_cache_valid_iff_populated_and_fresh (cache : WeatherCache) (now : ℚ) :
    is_cache_valid cache now = true ↔
      cache.data ≠ none ∧ now - cache.timestamp < 3600 := by
  simp [is_cache_valid, CACHE_DURATION, Option.isSome_iff_ne_none]

/-- C6 counterexample: the code maps 44 degrees to the NE sector (since
round(44/45) = 1), not to N as the claim states. -/
theorem wind_direction_44_is_NE :
    wind_direction 44 = "↙ NE" ∧ wind_direction 44 ≠ "↓ N" := by
  with_unfolding_all decide

/-- C6 (amended): `wind_direction` buckets degrees into 8 sectors of 45
degrees via round(degrees/45) mod 8 (the inner mod 360 of the code changes
nothing) over the fixed ordered label table, and the inputs 0, 44, 45, 90,
360 map respectively to N, NE, NE, E, N. -/
theorem wind_direction_buckets :
    (∀ degrees : ℚ, windIndex degrees = pyRound (degrees / 45) % 8) ∧
    wind_direction 0 = "↓ N" ∧ wind_direction 44 = "↙ NE" ∧
    wind_direction 45 = "↙ NE" ∧ wind_direction 90 = "← E" ∧
    wind_direction 360 = "↓ N" := by
  refine ⟨?_, ?_, ?_, ?_, ?_, ?_⟩
  · intro d
    unfold windIndex pymod
    have h : (d - 360 * (((d / 360).floor : ℤ) : ℚ)) / 45
        = d / 45 - 8 * (((d / 360).floor : ℤ) : ℚ) := by
      ring
    rw [h, pyRound_sub_eight_mul]
    omega
  all_goals with_unfolding_all decide

/-- C10: the table index computed by `wind_direction` is always in 0..7,
for every rational degrees input (negative and above 360 included), so the
8-entry label lookup always hits the table. -/
theorem wind_direction_index_in_bounds (degrees : ℚ) :
    0 ≤ windIndex degrees ∧ windIndex degrees < 8 ∧
    wind_direction degrees ∈ windLabels := by
  have h0 : 0 ≤ windIndex degrees := Int.emod_nonneg _ (by decide)
  have h8 : windIndex degrees < 8 := Int.emod_lt_of_pos _ (by decide)
  refine ⟨h0, h8, ?_⟩
  have hn : (windIndex degrees).toNat = 0 ∨ (windIndex degrees).toNat = 1 ∨
      (windIndex degrees).toNat = 2 ∨ (windIndex degrees).toNat = 3 ∨
      (windIndex degrees).toNat = 4 ∨ (windIndex degrees).toNat = 5 ∨
      (windIndex degrees).toNat = 6 ∨ (windIndex degrees).toNat = 7 := by
    omega
  unfold wind_direction
  rcases hn with h | h | h | h | h | h | h | h <;> rw [h] <;> decide

/-- C1: when the cache is valid and its stored dict holds the relevant key,
each of the five data accessors returns the cached sub-record unchanged and
performs zero upstream HTTP requests. -/
theorem cache_hit_serves_cached_subrecords
    (cache : WeatherCache) (now : ℚ) (env : Env) (d : CachedData)
    (hv : is_cache_valid cache now = true) (hd : cache.data = some d) :
    (∀ r, d.rainfall_data = some r → get_rainfall_data cache now env = (r, 0)) ∧
    (∀ w, d.current_weather = some w → get_current_weather cache now env = (w, 0)) ∧
    (∀ f, d.five_day_forecast = some f → get_5day_forecast cache now env = (f, 0)) ∧
    (∀ a, d.air_quality = some a → get_air_quality cache now env = (a, 0)) ∧
    (∀ s, d.sun_moon = some s → get_sun_moon_data cache now env = (s, 0)) := by
  refine ⟨?_, ?_, ?_, ?_, ?_⟩ <;> intro x hx <;>
    simp [get_rainfall_data, get_current_weather, get_5day_forecast,
      get_air_quality, get_sun_moon_data, get_from_cache, hv, hd, hx]

theorem cache_hit_serves_cached_subrecords_witness :
    get_rainfall_data cacheEx 200 envNone = (rainEx, 0) ∧
    get_current_weather cacheEx 200 envNone = (weatherEx, 0) ∧
    get_5day_forecast cacheEx 200 envNone = (daysEx, 0) ∧
    get_air_quality cacheEx 200 envNone = (airEx, 0) ∧
    get_sun_moon_data cacheEx 200 envNone = (sunEx, 0) := by
  have h := cache_hit_serves_cached_subrecords cacheEx 200 envNone cachedEx
    (by with_unfolding_all rfl) rfl
  exact ⟨h.1 rainEx rfl, h.2.1 weatherEx rfl, h.2.2.1 daysEx rfl,
    h.2.2.2.1 airEx rfl, h.2.2.2.2 sunEx rfl⟩

/-- C5: on a fresh fetch, the "current rainfall" value is the 3-hour
rainfall of the first entry of the raw forecast list (0 when that entry has
no rain field), and 0 for an empty list. -/
theorem current_rainfall_is_first_entry
    (cache : WeatherCache) (now : ℚ) (env : Env) (items : List ForecastItem)
    (hv : is_cache_valid cache now = false)
    (hresp : env.forecastRain = some items) :
    (items = [] →
      (get_rainfall_data cache now env).1.current_rainfall_last_hour_mm = 0) ∧
    (∀ it rest, items = it :: rest →
      (get_rainfall_data cache now env).1.current_rainfall_last_hour_mm
        = it.rain3h.getD 0) := by
  constructor
  · intro h
    subst h
    simp [get_rainfall_data, hv, freshRainfall, hresp]
  · intro it rest h
    subst h
    simp [get_rainfall_data, hv, freshRainfall, hresp, rainValue]

theorem current_rainfall_is_first_entry_witness :
    (get_rainfall_data emptyCache 0 envRain).1.current_rainfall_last_hour_mm = 5 ∧
    (get_rainfall_data emptyCache 0 envNone).1.current_rainfall_last_hour_mm = 0 := by
  constructor
  · have h := (current_rainfall_is_first_entry emptyCache 0 envRain rainItemsEx
      (by with_unfolding_all rfl) rfl).2 itemPast
      [itemF1, itemF0, itemF2, itemF3, itemF4, itemF5] rfl
    exact h.trans (by with_unfolding_all rfl)
  · with_unfolding_all rfl

/-- C8: `get_air_quality` maps the upstream index through the fixed 1..5
lookup table; any other index (0 and 7 included) produces the Unknown / No
data / gray sentinel, and index 3 produces Moderate with color #FFC107. -/
theorem air_quality_lookup_table
    (cache : WeatherCache) (now : ℚ) (env : Env) (a : AirResp)
    (hv : is_cache_valid cache now = false) (hresp : env.airResp = some a) :
    (get_air_quality cache now env).1.aqi = a.aqi ∧
    (get_air_quality cache now env).1.components = a.components ∧
    (¬ (1 ≤ a.aqi ∧ a.aqi ≤ 5) →
      (get_air_quality cache now env).1.level = "Unknown" ∧
      (get_air_quality cache now env).1.advice = "No data" ∧
      (get_air_quality cache now env).1.color = "#9E9E9E") ∧
    (a.aqi = 3 →
      (get_air_quality cache now env).1.level = "Moderate" ∧
      (get_air_quality cache now env).1.color = "#FFC107") := by
  refine ⟨?_, ?_, ?_, ?_⟩
  · simp [get_air_quality, hv, freshAir, hresp]
  · simp [get_air_quality, hv, freshAir, hresp]
  · intro h
    have h1 : a.aqi ≠ 1 := by omega
    have h2 : a.aqi ≠ 2 := by omega
    have h3 : a.aqi ≠ 3 := by omega
    have h4 : a.aqi ≠ 4 := by omega
    have h5 : a.aqi ≠ 5 := by omega
    simp [get_air_quality, hv, freshAir, hresp, aqLevels, h1, h2, h3, h4, h5]
  · intro h
    simp [get_air_quality, hv, freshAir, hresp, aqLevels, h]

theorem air_quality_lookup_table_witness :
    (get_air_quality emptyCache 0 envAir3).1.level = "Moderate" ∧
    (get_air_quality emptyCache 0 envAir3).1.color = "#FFC107" ∧
    (get_air_quality emptyCache 0 envAir7).1.level = "Unknown" ∧
    (get_air_quality emptyCache 0 envAir7).1.color = "#9E9E9E" ∧
    (get_air_quality emptyCache 0 envAir0).1.level = "Unknown" := by
  have h3 := (air_quality_lookup_table emptyCache 0 envAir3 airResp3
    (by with_unfolding_all rfl) rfl).2.2.2 rfl
  have h7 := (air_quality_lookup_table emptyCache 0 envAir7 airResp7
    (by with_unfolding_all rfl) rfl).2.2.1 (by decide)
  have h0 := (air_quality_lookup_table emptyCache 0 envAir0 airResp0
    (by with_unfolding_all rfl) rfl).2.2.1 (by decide)
  exact ⟨h3.1, h3.2, h7.1, h7.2.2, h0.1⟩

/-- C9: on a cache miss, every failing fetcher swallows the failure and
returns its documented structurally valid fallback record, and
`update_cache` still stores a snapshot holding all five sub-records, so one
upstream failure never aborts the aggregation of the other four. -/
theorem fetcher_fallbacks_on_failure
    (cache : WeatherCache) (now : ℚ) (env : Env)
    (hv : is_cache_valid cache now = false) :
    (env.forecastRain = none →
      get_rainfall_data cache now env = (rainFallback now, 1)) ∧
    (env.weatherResp = none →
      get_current_weather cache now env = (weatherFallback, 1)) ∧
    (env.forecastDays = none → get_5day_forecast cache now env = ([], 1)) ∧
    (env.airResp = none → get_air_quality cache now env = (airFallback, 1)) ∧
    (env.sunResp = none → get_sun_moon_data cache now env = (sunFallback, 1)) ∧
    (weatherFallback.temp = Val.str ("N/A") ∧ weatherFallback.icon = "01d" ∧
      airFallback.aqi = 0 ∧ airFallback.level = "Unknown" ∧
      airFallback.components = [] ∧
      (rainFallback now).current_rainfall_last_hour_mm = 0 ∧
      (rainFallback now).forecast = [] ∧
      sunFallback.sunrise = "N/A" ∧ sunFallback.sunset = "N/A") ∧
    ((update_cache cache now env).data = some (freshSnapshot now env) ∧
      (freshSnapshot now env).rainfall_data.isSome = true ∧
      (freshSnapshot now env).current_weather.isSome = true ∧
      (freshSnapshot now env).five_day_forecast.isSome = true ∧
      (freshSnapshot now env).air_quality.isSome = true ∧
      (freshSnapshot now env).sun_moon.isSome = true) := by
  refine ⟨?_, ?_, ?_, ?_, ?_, ?_, ?_⟩
  · intro h
    simp [get_rainfall_data, hv, freshRainfall, h]
  · intro h
    simp [get_current_weather, hv, freshWeather, h]
  · intro h
    simp [get_5day_forecast, hv, fresh5day, h]
  · intro h
    simp [get_air_quality, hv, freshAir, h]
  · intro h
    simp [get_sun_moon_data, hv, freshSunMoon, h]
  · exact ⟨rfl, rfl, rfl, rfl, rfl, rfl, rfl, rfl, rfl⟩
  · refine ⟨?_, rfl, rfl, rfl, rfl, rfl⟩
    simp [update_cache, freshSnapshot, get_rainfall_data, get_current_weather,
      get_5day_forecast, get_air_quality, get_sun_moon_data, hv]

theorem fetcher_fallbacks_on_failure_witness :
    get_rainfall_data emptyCache 0 envNone = (rainFallback 0, 1) ∧
    get_current_weather emptyCache 0 envNone = (weatherFallback, 1) ∧
    get_5day_forecast emptyCache 0 envNone = ([], 1) ∧
    get_air_quality emptyCache 0 envNone = (airFallback, 1) ∧
    get_sun_moon_data emptyCache 0 envNone = (sunFallback, 1) ∧
    (update_cache emptyCache 0 envNone).data = some (freshSnapshot 0 envNone) := by
  have h := fetcher_fallbacks_on_failure emptyCache 0 envNone
    (by with_unfolding_all rfl)
  exact ⟨h.1 rfl, h.2.1 rfl, h.2.2.1 rfl, h.2.2.2.1 rfl, h.2.2.2.2.1 rfl,
    h.2.2.2.2.2.2.1⟩

/-- C4: on a fresh fetch, the rainfall forecast consists of exactly the raw
entries strictly after now (as Tokyo-time instants) with strictly positive
3-hour rainfall, in the original upstream order, truncated to the first 4. -/
theorem rainfall_forecast_filters_future_positive
    (cache : WeatherCache) (now : ℚ) (env : Env) (items : List ForecastItem)
    (hv : is_cache_valid cache now = false)
    (hresp : env.forecastRain = some items) :
    (get_rainfall_data cache now env).1.forecast
      = ((items.filter (rainKeep now)).take 4).map rainPoint := by
  simp [get_rainfall_data, hv, freshRainfall, hresp, rainLoop_eq_filter,
    List.map_take]

theorem rainfall_forecast_filters_future_positive_witness :
    (get_rainfall_data emptyCache 0 envRain).1.forecast
      = [rainPoint itemF1, rainPoint itemF2, rainPoint itemF3, rainPoint itemF4] := by
  have h := rainfall_forecast_filters_future_positive emptyCache 0 envRain
    rainItemsEx (by with_unfolding_all rfl) rfl
  exact h.trans (by with_unfolding_all rfl)

/-- C3: `update_cache` writes all five freshly fetched sub-records and the
capture timestamp in a single step, and every reachable cache state is
either empty or exactly the snapshot of one refresh cycle (one environment,
one instant) — never a mix of cycles. -/
theorem update_cache_single_cycle :
    (∀ (cache : WeatherCache) (now : ℚ) (env : Env),
      is_cache_valid cache now = false →
      update_cache cache now env = ⟨some (freshSnapshot now env), now⟩) ∧
    (∀ cache : WeatherCache, Reachable cache →
      cache.data = none ∨
        ∃ now env, cache = ⟨some (freshSnapshot now env), now⟩) := by
  have hupd : ∀ (cache : WeatherCache) (now : ℚ) (env : Env),
      is_cache_valid cache now = false →
      update_cache cache now env = ⟨some (freshSnapshot now env), now⟩ := by
    intro cache now env hv
    simp [update_cache, freshSnapshot, get_rainfall_data, get_current_weather,
      get_5day_forecast, get_air_quality, get_sun_moon_data, hv]
  refine ⟨hupd, ?_⟩
  intro cache hreach
  induction hreach with
  | init => exact Or.inl rfl
  | step c now env _ ih =>
      by_cases hv : is_cache_valid c now = true
      · simpa [handleRequest, hv] using ih
      · right
        have hv2 : is_cache_valid c now = false := by
          cases h : is_cache_valid c now
          · rfl
          · exact absurd h hv
        refine ⟨now, env, ?_⟩
        simp [handleRequest, hv2, hupd c now env hv2]

theorem update_cache_single_cycle_witness :
    update_cache emptyCache 5 envRain = ⟨some (freshSnapshot 5 envRain), 5⟩ ∧
    (emptyCache.data = none ∨
      ∃ now env, emptyCache = ⟨some (freshSnapshot now env), now⟩) :=
  ⟨update_cache_single_cycle.1 emptyCache 5 envRain (by with_unfolding_all rfl),
    update_cache_single_cycle.2 emptyCache Reachable.init⟩

/-- C7: on a fresh fetch, the 5-day forecast keeps exactly the first entry
encountered for each calendar date (its temperature, description and icon),
in encounter order of the dates, truncated to at most 5 dates; its length is
the number of distinct dates capped at 5. -/
theorem five_day_forecast_first_per_date
    (cache : WeatherCache) (now : ℚ) (env : Env) (items : List ForecastItem)
    (hv : is_cache_valid cache now = false)
    (hresp : env.forecastDays = some items) :
    (get_5day_forecast cache now env).1
      = ((firstPerDate [] items).map mkDayEntry).take 5 ∧
    (get_5day_forecast cache now env).1.length
      = min 5 (items.map fun it => it.dt_txt.date).toFinset.card := by
  have hmain : (get_5day_forecast cache now env).1
      = ((firstPerDate [] items).map mkDayEntry).take 5 := by
    simp only [get_5day_forecast, hv, Bool.false_eq_true, if_false, fresh5day,
      hresp]
    rw [daily_fold_eq items []]
    simp only [List.nil_append, List.map_nil, List.map_map]
    rfl
  refine ⟨hmain, ?_⟩
  rw [hmain, List.length_take, List.length_map, firstPerDate_length]
  simp

set_option maxRecDepth 8192 in
theorem five_day_forecast_first_per_date_witness :
    (get_5day_forecast emptyCache 0 envDays).1.length = 3 ∧
    (get_5day_forecast emptyCache 0 envDays).1
      = ((firstPerDate [] daysItemsEx).map mkDayEntry).take 5 := by
  have h := five_day_forecast_first_per_date emptyCache 0 envDays daysItemsEx
    (by with_unfolding_all rfl) rfl
  exact ⟨h.2.trans (by with_unfolding_all rfl), h.1⟩

end TokyoWeather
